import Mathlib

/-
  Shallow embedding of src/scraper_engine.py (BUG-CHECKER-F).

  The mutable attributes of AntiDetectionScraper become an explicit state
  record that every operation threads.  Randomness and the network are
  modelled by oracles: each transport attempt consumes one AttemptOutcome
  from an environment function, and every time.sleep call is recorded as a
  DelayEvent tagged with the band it draws from instead of a sampled value.
  A Python exception that escapes a method is an Except.error; exceptions
  that the code catches locally never surface as errors of the model.
-/

namespace BugCheckerF

/-- State of one AntiDetectionScraper instance: the attributes set in
  the constructor that the engine mutates or reads (user_agent and session
  carry no state the claims touch). -/
structure ScraperState where
  proxies : List String
  current_proxy_index : Nat
  rate_limit : Nat
  max_retries : Nat
deriving DecidableEq, Repr

/-- A fresh instance: empty pool, cursor 0, rate_limit 2, max_retries 3. -/
def initState : ScraperState :=
  { proxies := [], current_proxy_index := 0, rate_limit := 2, max_retries := 3 }

/-- The dictionary get_next_proxy builds for a selected endpoint:
  the same endpoint string under the http and https keys. -/
structure ProxyDict where
  http : String
  https : String
deriving DecidableEq, Repr

def mkProxyDict (p : String) : ProxyDict := { http := p, https := p }

/-- One recorded time.sleep call, tagged by the code path that issued it.
  rateLimitPenalty is time.sleep(random.uniform(10, 20)) in the 429 branch;
  transportPenalty is time.sleep(random.uniform(5, 10)) in the except branch;
  humanDelay is human_delay(), sleeping rate_limit + random.uniform(0.5, 3.0). -/
inductive DelayEvent where
  | rateLimitPenalty
  | transportPenalty
  | humanDelay (rate_limit : Nat)
deriving DecidableEq, Repr

/-- The closed interval each delay kind draws from, in seconds. -/
def DelayEvent.band : DelayEvent → Rat × Rat
  | .rateLimitPenalty => (10, 20)
  | .transportPenalty => (5, 10)
  | .humanDelay rl => ((rl : Rat) + 1/2, (rl : Rat) + 3)

/-- One candidate result block of the parsed listings page, as the loop in
  extract_business_info reads it: the stripped text of the name span if
  present, the aria-label attribute of the rating span if present, the
  stripped text of the address div if present.  malformed models a block
  whose processing raises, which the per-block except clause swallows. -/
structure SoupBlock where
  malformed : Bool
  name : Option String
  ratingAria : Option String
  address : Option String
deriving DecidableEq, Repr

/-- The BeautifulSoup parse of a response body, restricted to what the code
  reads: the title tag (outer none = no title tag, inner value = its string,
  which BeautifulSoup may report as None) and the div blocks carrying a
  data-cid attribute. -/
structure Soup where
  title : Option (Option String)
  blocks : List SoupBlock
deriving DecidableEq, Repr

/-- What one call of session.get produces: either a response, together with
  the oracle values the extractors would compute from its text
  (trafilatura.extract may yield None), or a requests RequestException. -/
inductive AttemptOutcome where
  | response (status_code : Nat) (text : String)
      (trafilaturaText : Option String) (soup : Soup)
  | requestError
deriving DecidableEq, Repr

/-- The dictionary scrape_url returns.  Optional fields model key presence:
  title is absent from the trafilatura and failed dictionaries, and no
  branch of scrape_url ever stores a soup key. -/
structure FetchResult where
  url : String
  status : String
  content : Option String
  title : Option (Option String)
  method : Option String
  soup : Option Soup
deriving DecidableEq, Repr

/-- The success dictionary of the use_trafilatura branch. -/
def successTrafilatura (url : String) (text_content : Option String) : FetchResult :=
  { url := url, status := "success", content := text_content,
    title := none, method := some "trafilatura", soup := none }

/-- The success dictionary of the BeautifulSoup branch: content is the raw
  body, title is soup.title.string when a title tag exists, else the empty
  string. -/
def successBeautifulSoup (url text : String) (soup : Soup) : FetchResult :=
  { url := url, status := "success", content := some text,
    title := some (match soup.title with | none => some "" | some v => v),
    method := some "beautifulsoup", soup := none }

/-- The terminal failure dictionary returned after the retry loop. -/
def failedResult (url : String) : FetchResult :=
  { url := url, status := "failed", content := none,
    title := none, method := none, soup := none }

/-- One record built by extract_business_info. -/
structure Business where
  name : String
  rating : String
  address : String
  search_query : String
  scraped_at : String
deriving DecidableEq, Repr

/-! ## Operations of AntiDetectionScraper -/

/-- add_proxies: stores the given list in self.proxies.  The cursor
  current_proxy_index is not touched. -/
def add_proxies (s : ScraperState) (proxy_list : List String) : ScraperState :=
  { s with proxies := proxy_list }

/-- get_next_proxy: returns None on an empty pool; otherwise reads
  self.proxies[self.current_proxy_index] (raising IndexError when the cursor
  is out of range, modelled as Except.error) and advances the cursor by one
  modulo the pool length. -/
def get_next_proxy (s : ScraperState) :
    Except String (Option ProxyDict × ScraperState) :=
  if s.proxies.isEmpty then .ok (none, s)
  else
    match s.proxies.get? s.current_proxy_index with
    | none => .error "IndexError: list index out of range"
    | some proxy =>
        .ok (some (mkProxyDict proxy),
          { s with
              current_proxy_index :=
                (s.current_proxy_index + 1) % s.proxies.length })

/-- n consecutive get_next_proxy calls, collecting the returned values.
  An IndexError on any call propagates. -/
def rotate_n (s : ScraperState) : Nat → Except String (List (Option ProxyDict) × ScraperState)
  | 0 => .ok ([], s)
  | n + 1 =>
      match get_next_proxy s with
      | .error e => .error e
      | .ok (p, s1) =>
          match rotate_n s1 n with
          | .error e => .error e
          | .ok (ps, s2) => .ok (p :: ps, s2)

/-- Control outcome of one iteration of the retry loop body: either a
  return statement fired with a result, or control reaches the next
  iteration of the for loop. -/
inductive StepControl where
  | done (r : FetchResult)
  | nextAttempt
deriving DecidableEq, Repr

/-- The body of one iteration of the scrape_url retry loop, after the
  transport outcome is known.  Returns the control outcome and the sleeps
  this iteration performs, in order:
  status 200 returns a success dictionary at once, no sleep;
  status 429 sleeps the 10 to 20 second penalty and continues, skipping the
  bottom-of-loop human_delay;
  any other status falls through to the bottom of the loop, where
  human_delay runs only when attempt < max_retries - 1;
  a RequestException is caught, sleeps the 5 to 10 second penalty and
  continues when attempt < max_retries - 1, else falls out past the bottom
  condition (also false) with no sleep. -/
def attempt_body (s : ScraperState) (url : String) (use_trafilatura : Bool)
    (attempt : Nat) (outcome : AttemptOutcome) : StepControl × List DelayEvent :=
  match outcome with
  | .response status_code text trafilaturaText soup =>
      if status_code = 200 then
        if use_trafilatura then
          (.done (successTrafilatura url trafilaturaText), [])
        else
          (.done (successBeautifulSoup url text soup), [])
      else if status_code = 429 then
        (.nextAttempt, [.rateLimitPenalty])
      else
        if attempt < s.max_retries - 1 then
          (.nextAttempt, [.humanDelay s.rate_limit])
        else
          (.nextAttempt, [])
  | .requestError =>
      if attempt < s.max_retries - 1 then
        (.nextAttempt, [.transportPenalty])
      else
        (.nextAttempt, [])

/-- The for loop of scrape_url: remaining iterations of
  for attempt in range(max_retries), with attempt the current index.
  Each iteration obtains fresh headers (stateless), calls get_next_proxy
  (whose IndexError is not a RequestException and escapes), consults the
  transport for this attempt, and runs the body.  Yields the result, the
  final state, the sleeps in order, and the number of transport attempts. -/
def scrape_url_loop (url : String) (use_trafilatura : Bool)
    (env : Nat → AttemptOutcome) :
    ScraperState → Nat → Nat →
      Except String (FetchResult × ScraperState × List DelayEvent × Nat)
  | s, _, 0 => .ok (failedResult url, s, [], 0)
  | s, attempt, remaining + 1 =>
      match get_next_proxy s with
      | .error e => .error e
      | .ok (_, s1) =>
          match attempt_body s1 url use_trafilatura attempt (env attempt) with
          | (.done r, evs) => .ok (r, s1, evs, 1)
          | (.nextAttempt, evs) =>
              match scrape_url_loop url use_trafilatura env s1 (attempt + 1) remaining with
              | .error e => .error e
              | .ok (r, s2, evs2, n) => .ok (r, s2, evs ++ evs2, n + 1)

/-- scrape_url: runs the retry loop from attempt 0 for max_retries
  iterations and, when no iteration returned, yields the failed result. -/
def scrape_url (s : ScraperState) (url : String) (use_trafilatura : Bool)
    (env : Nat → AttemptOutcome) :
    Except String (FetchResult × ScraperState × List DelayEvent × Nat) :=
  scrape_url_loop url use_trafilatura env s 0 s.max_retries

/-- The loop of bulk_scrape: one scrape_url per url in order, appending each
  result, with human_delay after every item except the last.  envs gives the
  transport oracle of each url by position. -/
def bulk_scrape_loop (use_trafilatura : Bool) :
    ScraperState → List String → (Nat → Nat → AttemptOutcome) →
      Except String (List FetchResult × ScraperState × List DelayEvent)
  | s, [], _ => .ok ([], s, [])
  | s, url :: rest, envs =>
      match scrape_url s url use_trafilatura (envs 0) with
      | .error e => .error e
      | .ok (r, s1, evs, _) =>
          let pacing : List DelayEvent :=
            if rest.isEmpty then [] else [.humanDelay s1.rate_limit]
          match bulk_scrape_loop use_trafilatura s1 rest (fun i => envs (i + 1)) with
          | .error e => .error e
          | .ok (rs, s2, evs2) => .ok (r :: rs, s2, evs ++ pacing ++ evs2)

/-- bulk_scrape: scrape every url sequentially with pacing in between. -/
def bulk_scrape (s : ScraperState) (urls : List String) (use_trafilatura : Bool)
    (envs : Nat → Nat → AttemptOutcome) :
    Except String (List FetchResult × ScraperState × List DelayEvent) :=
  bulk_scrape_loop use_trafilatura s urls envs

/-! ## GoogleMapsScraper -/

/-- The query string: f-string of search_query and location, stripped. -/
def buildQuery (search_query location : String) : String :=
  (search_query ++ " " ++ location).trim

/-- The search url: base url plus the query with spaces replaced by plus. -/
def buildSearchUrl (query : String) : String :=
  "https://www.google.com/maps/search/" ++ query.replace " " "+"

/-- The per-block body of the extraction loop: a raising block is swallowed
  by the except clause (the loop continues, yielding nothing for it);
  otherwise each missing sub-element defaults independently: name to
  Unknown, rating and address to the empty string. -/
def extract_business_element (query scraped_at : String) (element : SoupBlock) :
    Option Business :=
  if element.malformed then none
  else
    some
      { name := element.name.getD "Unknown",
        rating := element.ratingAria.getD "",
        address := element.address.getD "",
        search_query := query,
        scraped_at := scraped_at }

/-- extract_business_info: builds the search url, fetches it through
  scrape_url in the BeautifulSoup mode, and only when the result dictionary
  has status success AND carries a soup key walks the first 10 data-cid
  blocks.  scraped_at is the formatted current time.  The result dictionary
  itself is a nonempty dict, hence always truthy. -/
def extract_business_info (s : ScraperState) (search_query location scraped_at : String)
    (env : Nat → AttemptOutcome) :
    Except String (List Business × ScraperState × List DelayEvent) :=
  let query := buildQuery search_query location
  let search_url := buildSearchUrl query
  match scrape_url s search_url false env with
  | .error e => .error e
  | .ok (result, s1, evs, _) =>
      if result.status = "success" then
        match result.soup with
        | some soup =>
            .ok ((soup.blocks.take 10).filterMap (extract_business_element query scraped_at),
                 s1, evs)
        | none => .ok ([], s1, evs)
      else .ok ([], s1, evs)

/-! ## The pool invariant -/

/-- The ProxyPool invariant of the spec: the cursor is in range whenever
  the pool is nonempty. -/
def PoolWF (s : ScraperState) : Prop :=
  s.proxies = [] ∨ s.current_proxy_index < s.proxies.length

instance (s : ScraperState) : Decidable (PoolWF s) := by
  unfold PoolWF; infer_instance

end BugCheckerF

namespace BugCheckerF

/-! ## Helper lemmas -/

lemma get_next_proxy_wf (s : ScraperState) (h : PoolWF s) :
    ∃ p s1, get_next_proxy s = .ok (p, s1) ∧ PoolWF s1 ∧
      s1.proxies = s.proxies ∧ s1.rate_limit = s.rate_limit ∧
      s1.max_retries = s.max_retries := by
  rcases h with h | h
  · refine ⟨none, s, ?_, Or.inl h, rfl, rfl, rfl⟩
    simp [get_next_proxy, h]
  · have hne : s.proxies ≠ [] := by
      intro he
      rw [he] at h
      simp at h
    have hlen : 0 < s.proxies.length := List.length_pos.mpr hne
    have hget : s.proxies[s.current_proxy_index]? =
        some s.proxies[s.current_proxy_index] := List.getElem?_eq_getElem h
    refine ⟨some (mkProxyDict s.proxies[s.current_proxy_index]),
      { s with current_proxy_index := (s.current_proxy_index + 1) % s.proxies.length },
      ?_, Or.inr (Nat.mod_lt _ hlen), rfl, rfl, rfl⟩
    simp [get_next_proxy, hget, hne]

lemma attempt_body_done (s : ScraperState) (url : String) (flag : Bool)
    (attempt : Nat) (outcome : AttemptOutcome) (r : FetchResult) (evs : List DelayEvent)
    (h : attempt_body s url flag attempt outcome = (.done r, evs)) :
    r.status = "success" ∧ r.url = url ∧ r.soup = none := by
  cases outcome with
  | response c t tf sp =>
      simp only [attempt_body] at h
      split_ifs at h <;>
        first
        | (injection h with h1 h2; injection h1 with h1; subst h1;
           exact ⟨rfl, rfl, rfl⟩)
        | simp at h
  | requestError =>
      simp only [attempt_body] at h
      split_ifs at h <;> simp at h

lemma attempt_body_requestError (s : ScraperState) (url : String) (flag : Bool)
    (attempt : Nat) :
    ∃ evs, attempt_body s url flag attempt .requestError = (.nextAttempt, evs) := by
  simp only [attempt_body]
  split_ifs <;> exact ⟨_, rfl⟩

lemma scrape_url_loop_spec (url : String) (flag : Bool) (env : Nat → AttemptOutcome) :
    ∀ (remaining : Nat) (s : ScraperState) (attempt : Nat), PoolWF s →
      ∃ r s1 evs n,
        scrape_url_loop url flag env s attempt remaining = .ok (r, s1, evs, n) ∧
        PoolWF s1 ∧ s1.proxies = s.proxies ∧ s1.rate_limit = s.rate_limit ∧
        s1.max_retries = s.max_retries ∧ n ≤ remaining ∧
        (r.status = "success" ∨ r.status = "failed") ∧ r.url = url ∧ r.soup = none := by
  intro remaining
  induction remaining with
  | zero =>
      intro s attempt hwf
      exact ⟨failedResult url, s, [], 0, rfl, hwf, rfl, rfl, rfl, Nat.le_refl 0,
        Or.inr rfl, rfl, rfl⟩
  | succ rem ih =>
      intro s attempt hwf
      obtain ⟨p, s1, hgp, hwf1, hp1, hr1, hm1⟩ := get_next_proxy_wf s hwf
      match hb : attempt_body s1 url flag attempt (env attempt) with
      | (.done r, evs) =>
          obtain ⟨hs, hu, hsoup⟩ := attempt_body_done _ _ _ _ _ _ _ hb
          refine ⟨r, s1, evs, 1, ?_, hwf1, hp1, hr1, hm1, by omega, Or.inl hs, hu, hsoup⟩
          simp [scrape_url_loop, hgp, hb]
      | (.nextAttempt, evs) =>
          obtain ⟨r, s2, evs2, n, hrec, hwf2, hp2, hr2, hm2, hn, hst, hu, hsoup⟩ :=
            ih s1 (attempt + 1) hwf1
          refine ⟨r, s2, evs ++ evs2, n + 1, ?_, hwf2, hp2.trans hp1, hr2.trans hr1,
            hm2.trans hm1, by omega, hst, hu, hsoup⟩
          simp [scrape_url_loop, hgp, hb, hrec]

lemma scrape_url_spec (s : ScraperState) (url : String) (flag : Bool)
    (env : Nat → AttemptOutcome) (hwf : PoolWF s) :
    ∃ r s1 evs n, scrape_url s url flag env = .ok (r, s1, evs, n) ∧
      PoolWF s1 ∧ s1.proxies = s.proxies ∧ s1.rate_limit = s.rate_limit ∧
      s1.max_retries = s.max_retries ∧ n ≤ s.max_retries ∧
      (r.status = "success" ∨ r.status = "failed") ∧ r.url = url ∧ r.soup = none :=
  scrape_url_loop_spec url flag env s.max_retries s 0 hwf

end BugCheckerF

namespace BugCheckerF

lemma rotate_n_empty (s : ScraperState) (h : s.proxies = []) :
    ∀ n, rotate_n s n = .ok (List.replicate n none, s) := by
  intro n
  induction n with
  | zero => rfl
  | succ k ih =>
      have hgp : get_next_proxy s = .ok (none, s) := by
        simp [get_next_proxy, h]
      simp [rotate_n, hgp, ih, List.replicate_succ]

lemma rotate_n_wf (n : Nat) :
    ∀ s : ScraperState, PoolWF s →
      ∃ ps s1, rotate_n s n = .ok (ps, s1) ∧ PoolWF s1 := by
  induction n with
  | zero => exact fun s hwf => ⟨[], s, rfl, hwf⟩
  | succ k ih =>
      intro s hwf
      obtain ⟨p, s1, hgp, hwf1, -, -, -⟩ := get_next_proxy_wf s hwf
      obtain ⟨ps, s2, hrec, hwf2⟩ := ih s1 hwf1
      exact ⟨p :: ps, s2, by simp [rotate_n, hgp, hrec], hwf2⟩

lemma rotate_n_spec (n : Nat) :
    ∀ s : ScraperState, s.current_proxy_index < s.proxies.length →
      rotate_n s n =
        .ok ((List.range n).map (fun i =>
            (s.proxies[(s.current_proxy_index + i) % s.proxies.length]?).map mkProxyDict),
          { s with current_proxy_index :=
              (s.current_proxy_index + n) % s.proxies.length }) := by
  induction n with
  | zero =>
      intro s h
      simp [rotate_n, Nat.mod_eq_of_lt h]
  | succ k ih =>
      intro s h
      have hne : s.proxies ≠ [] := by
        intro he
        rw [he] at h
        simp at h
      have hlen : 0 < s.proxies.length := List.length_pos.mpr hne
      have hget : s.proxies[s.current_proxy_index]? =
          some s.proxies[s.current_proxy_index] := List.getElem?_eq_getElem h
      have hgp : get_next_proxy s =
          .ok (some (mkProxyDict s.proxies[s.current_proxy_index]),
            { s with current_proxy_index :=
                (s.current_proxy_index + 1) % s.proxies.length }) := by
        simp [get_next_proxy, hget, hne]
      have hrec := ih
        { s with current_proxy_index := (s.current_proxy_index + 1) % s.proxies.length }
        (Nat.mod_lt _ hlen)
      simp only [rotate_n, hgp, hrec]
      congr 1
      refine congrArg₂ Prod.mk ?_ ?_
      · rw [List.range_succ_eq_map, List.map_cons, List.map_map]
        refine congrArg₂ List.cons ?_ ?_
        · rw [Nat.add_zero, Nat.mod_eq_of_lt h, hget]
          rfl
        · refine List.map_congr_left fun i _ => ?_
          simp only [Function.comp_apply]
          rw [Nat.mod_add_mod,
            show s.current_proxy_index + 1 + i = s.current_proxy_index + (i + 1) from by omega]
      · have hidx : ((s.current_proxy_index + 1) % s.proxies.length + k) % s.proxies.length
            = (s.current_proxy_index + (k + 1)) % s.proxies.length := by
          rw [Nat.mod_add_mod]
          congr 1
          omega
        rw [hidx]

lemma range_map_getElem {α β : Type} (l : List α) (f : α → β) :
    (List.range l.length).map (fun i => (l[i]?).map f) =
      l.map (fun a => some (f a)) := by
  induction l with
  | nil => rfl
  | cons a t ih =>
      rw [List.length_cons, List.range_succ_eq_map, List.map_cons, List.map_map]
      refine congrArg₂ List.cons (by simp) ?_
      refine Eq.trans (List.map_congr_left fun i _ => ?_) ih
      simp

end BugCheckerF

namespace BugCheckerF

lemma scrape_url_loop_step_done (url : String) (flag : Bool) (env : Nat → AttemptOutcome)
    (s s1 : ScraperState) (p : Option ProxyDict) (attempt remaining : Nat)
    (r : FetchResult) (evs : List DelayEvent)
    (hgp : get_next_proxy s = .ok (p, s1))
    (hb : attempt_body s1 url flag attempt (env attempt) = (.done r, evs)) :
    scrape_url_loop url flag env s attempt (remaining + 1) = .ok (r, s1, evs, 1) := by
  simp [scrape_url_loop, hgp, hb]

lemma scrape_url_loop_step_next (url : String) (flag : Bool) (env : Nat → AttemptOutcome)
    (s s1 s2 : ScraperState) (p : Option ProxyDict) (attempt remaining n : Nat)
    (r : FetchResult) (evs evs2 : List DelayEvent)
    (hgp : get_next_proxy s = .ok (p, s1))
    (hb : attempt_body s1 url flag attempt (env attempt) = (.nextAttempt, evs))
    (hrec : scrape_url_loop url flag env s1 (attempt + 1) remaining = .ok (r, s2, evs2, n)) :
    scrape_url_loop url flag env s attempt (remaining + 1) = .ok (r, s2, evs ++ evs2, n + 1) := by
  simp [scrape_url_loop, hgp, hb, hrec]

lemma attempt_body_429 (s : ScraperState) (url : String) (flag : Bool) (attempt : Nat)
    (t : String) (tf : Option String) (sp : Soup) :
    attempt_body s url flag attempt (.response 429 t tf sp) =
      (.nextAttempt, [.rateLimitPenalty]) := by
  simp [attempt_body]

lemma attempt_body_200_trafilatura (s : ScraperState) (url : String) (attempt : Nat)
    (t : String) (tf : Option String) (sp : Soup) :
    attempt_body s url true attempt (.response 200 t tf sp) =
      (.done (successTrafilatura url tf), []) := by
  simp [attempt_body]

lemma attempt_body_200_beautifulsoup (s : ScraperState) (url : String) (attempt : Nat)
    (t : String) (tf : Option String) (sp : Soup) :
    attempt_body s url false attempt (.response 200 t tf sp) =
      (.done (successBeautifulSoup url t sp), []) := by
  simp [attempt_body]

lemma scrape_url_loop_all_fail (url : String) (flag : Bool) (env : Nat → AttemptOutcome)
    (hfail : ∀ i, env i = .requestError) :
    ∀ (remaining : Nat) (s : ScraperState) (attempt : Nat), PoolWF s →
      ∃ s1 evs, scrape_url_loop url flag env s attempt remaining
        = .ok (failedResult url, s1, evs, remaining) := by
  intro remaining
  induction remaining with
  | zero => exact fun s attempt _ => ⟨s, [], rfl⟩
  | succ rem ih =>
      intro s attempt hwf
      obtain ⟨p, s1, hgp, hwf1, -, -, -⟩ := get_next_proxy_wf s hwf
      obtain ⟨evs, hb⟩ := attempt_body_requestError s1 url flag attempt
      have hb2 : attempt_body s1 url flag attempt (env attempt) = (.nextAttempt, evs) := by
        rw [hfail attempt]
        exact hb
      obtain ⟨s2, evs2, hrec⟩ := ih s1 (attempt + 1) hwf1
      exact ⟨s2, evs ++ evs2,
        scrape_url_loop_step_next url flag env s s1 s2 p attempt rem rem
          (failedResult url) evs evs2 hgp hb2 hrec⟩

lemma scrape_url_loop_soup_none (url : String) (flag : Bool) (env : Nat → AttemptOutcome) :
    ∀ (remaining : Nat) (s : ScraperState) (attempt : Nat) (r : FetchResult)
      (s1 : ScraperState) (evs : List DelayEvent) (n : Nat),
      scrape_url_loop url flag env s attempt remaining = .ok (r, s1, evs, n) →
      r.soup = none := by
  intro remaining
  induction remaining with
  | zero =>
      intro s attempt r s1 evs n h
      simp only [scrape_url_loop, Except.ok.injEq, Prod.mk.injEq] at h
      rw [← h.1]
      rfl
  | succ rem ih =>
      intro s attempt r s1 evs n h
      cases hgp : get_next_proxy s with
      | error e => simp [scrape_url_loop, hgp] at h
      | ok ps =>
          obtain ⟨p, sa⟩ := ps
          rcases hb : attempt_body sa url flag attempt (env attempt) with ⟨ctrl, evs0⟩
          cases ctrl with
          | done r0 =>
              simp only [scrape_url_loop, hgp, hb, Except.ok.injEq, Prod.mk.injEq] at h
              rw [← h.1]
              exact (attempt_body_done sa url flag attempt (env attempt) r0 evs0 hb).2.2
          | nextAttempt =>
              cases hrec : scrape_url_loop url flag env sa (attempt + 1) rem with
              | error e => simp [scrape_url_loop, hgp, hb, hrec] at h
              | ok t =>
                  obtain ⟨r2, s2, evs2, n2⟩ := t
                  simp only [scrape_url_loop, hgp, hb, hrec, Except.ok.injEq,
                    Prod.mk.injEq] at h
                  rw [← h.1]
                  exact ih sa (attempt + 1) r2 s2 evs2 n2 hrec

/-- Any dictionary scrape_url returns lacks the soup key, so the guard in
  extract_business_info never lets the block loop run. -/
lemma extract_business_info_empty (s : ScraperState) (q loc now : String)
    (env : Nat → AttemptOutcome) (bs : List Business) (s1 : ScraperState)
    (evs : List DelayEvent)
    (h : extract_business_info s q loc now env = .ok (bs, s1, evs)) :
    bs = [] := by
  simp only [extract_business_info] at h
  cases hscr : scrape_url s (buildSearchUrl (buildQuery q loc)) false env with
  | error e =>
      rw [hscr] at h
      simp at h
  | ok t =>
      obtain ⟨r, s2, evs2, n⟩ := t
      have hsoup : r.soup = none :=
        scrape_url_loop_soup_none _ _ _ s.max_retries s 0 r s2 evs2 n hscr
      rw [hscr] at h
      simp only [hsoup] at h
      split_ifs at h <;>
        · simp only [Except.ok.injEq, Prod.mk.injEq] at h
          exact h.1.symm

end BugCheckerF

namespace BugCheckerF

/-! ## Concrete fixtures -/

def emptySoup : Soup := { title := none, blocks := [] }

def envOk : Nat → AttemptOutcome :=
  fun _ => .response 200 "ok" none emptySoup

def envFail : Nat → AttemptOutcome :=
  fun _ => .requestError

def env429then200 : Nat → AttemptOutcome :=
  fun i => if i = 0 then .response 429 "" none emptySoup
           else .response 200 "ok" none emptySoup

def envErrThen200 : Nat → AttemptOutcome :=
  fun i => if i = 0 then .requestError
           else .response 200 "ok" none emptySoup

def env429twice : Nat → AttemptOutcome :=
  fun i => if i ≤ 1 then .response 429 "" none emptySoup
           else .response 200 "ok" none emptySoup

/-! ## Claim C3 -/

/-- Claim C3, counterexample: from a fresh engine, configure a pool of two
  endpoints and advance the rotator once, so the cursor is 1; calling
  add_proxies again replaces the pool but leaves the cursor at 1, not 0. -/
theorem add_proxies_no_reset_counterexample :
    get_next_proxy (add_proxies initState ["a", "b"]) =
      .ok (some (mkProxyDict "a"),
        { proxies := ["a", "b"], current_proxy_index := 1,
          rate_limit := 2, max_retries := 3 }) ∧
    add_proxies
        { proxies := ["a", "b"], current_proxy_index := 1,
          rate_limit := 2, max_retries := 3 } ["c", "d"] =
      { proxies := ["c", "d"], current_proxy_index := 1,
        rate_limit := 2, max_retries := 3 } ∧
    (1 : Nat) ≠ 0 :=
  ⟨rfl, rfl, by decide⟩

/-- Claim C3 (amended): add_proxies replaces the active pool with the given
  sequence but leaves the cursor index unchanged; it does not reset it to 0. -/
theorem add_proxies_replaces_pool_keeps_cursor (s : ScraperState) (l : List String) :
    (add_proxies s l).proxies = l ∧
    (add_proxies s l).current_proxy_index = s.current_proxy_index :=
  ⟨rfl, rfl⟩

/-! ## Claim C4 -/

/-- Claim C4, counterexample: the invariant is reachable to break.  From a
  fresh engine, configure three endpoints and advance twice (cursor 2, in
  range); then add_proxies with a two-endpoint pool leaves cursor 2 on a
  pool of length 2, violating the invariant, and the following
  get_next_proxy indexes out of range (IndexError). -/
theorem pool_invariant_violated_counterexample :
    get_next_proxy (add_proxies initState ["a", "b", "c"]) =
      .ok (some (mkProxyDict "a"),
        { proxies := ["a", "b", "c"], current_proxy_index := 1,
          rate_limit := 2, max_retries := 3 }) ∧
    get_next_proxy
        { proxies := ["a", "b", "c"], current_proxy_index := 1,
          rate_limit := 2, max_retries := 3 } =
      .ok (some (mkProxyDict "b"),
        { proxies := ["a", "b", "c"], current_proxy_index := 2,
          rate_limit := 2, max_retries := 3 }) ∧
    ¬ PoolWF (add_proxies
        { proxies := ["a", "b", "c"], current_proxy_index := 2,
          rate_limit := 2, max_retries := 3 } ["x", "y"]) ∧
    get_next_proxy (add_proxies
        { proxies := ["a", "b", "c"], current_proxy_index := 2,
          rate_limit := 2, max_retries := 3 } ["x", "y"]) =
      .error "IndexError: list index out of range" :=
  ⟨rfl, rfl, by decide, rfl⟩

/-- Claim C4 (amended): get_next_proxy preserves the cursor invariant, so
  any sequence of next calls from an invariant-satisfying state succeeds
  (never indexes out of range) and ends in an invariant-satisfying state.
  add_proxies, however, does not re-establish the invariant: replacing the
  pool with a shorter one can strand the cursor out of range. -/
theorem pool_invariant_preserved_by_next (s : ScraperState) (hwf : PoolWF s) (n : Nat) :
    ∃ ps s1, rotate_n s n = .ok (ps, s1) ∧ PoolWF s1 :=
  rotate_n_wf n s hwf

theorem pool_invariant_preserved_by_next_witness :
    PoolWF (add_proxies initState ["a", "b"]) ∧
    ∃ ps s1, rotate_n (add_proxies initState ["a", "b"]) 5 = .ok (ps, s1) ∧ PoolWF s1 :=
  ⟨by decide,
   pool_invariant_preserved_by_next (add_proxies initState ["a", "b"]) (by decide) 5⟩

/-! ## Claim C5 -/

/-- Claim C5, counterexample: configure two endpoints on an engine whose
  cursor is 1 (reachable by an earlier configure plus one next call).  The
  first three calls after configuring return b, a, b: not the configured
  pool order followed by the first endpoint again. -/
theorem proxy_round_robin_counterexample :
    get_next_proxy (add_proxies initState ["p", "q"]) =
      .ok (some (mkProxyDict "p"),
        { proxies := ["p", "q"], current_proxy_index := 1,
          rate_limit := 2, max_retries := 3 }) ∧
    rotate_n (add_proxies
        { proxies := ["p", "q"], current_proxy_index := 1,
          rate_limit := 2, max_retries := 3 } ["a", "b"]) 3 =
      .ok ([some (mkProxyDict "b"), some (mkProxyDict "a"), some (mkProxyDict "b")],
        { proxies := ["a", "b"], current_proxy_index := 0,
          rate_limit := 2, max_retries := 3 }) ∧
    [some (mkProxyDict "b"), some (mkProxyDict "a"), some (mkProxyDict "b")] ≠
      ["a", "b"].map (fun p => some (mkProxyDict p)) ++
        [(["a", "b"][0]?).map mkProxyDict] :=
  ⟨rfl, rfl, by decide⟩

/-- Claim C5 (amended): starting from cursor 0 (a fresh engine, since
  add_proxies does not reset the cursor), K consecutive get_next_proxy calls
  on a pool of K endpoints return each endpoint exactly once in pool order,
  and the call after that returns the first endpoint again; with an empty
  pool every call returns None and never errors. -/
theorem proxy_round_robin (s : ScraperState) (hne : s.proxies ≠ [])
    (h0 : s.current_proxy_index = 0) :
    (∃ s1, rotate_n s s.proxies.length =
      .ok (s.proxies.map (fun p => some (mkProxyDict p)), s1)) ∧
    (∃ s2, rotate_n s (s.proxies.length + 1) =
      .ok (s.proxies.map (fun p => some (mkProxyDict p)) ++
        [(s.proxies[0]?).map mkProxyDict], s2)) ∧
    (∀ se : ScraperState, se.proxies = [] →
      ∀ n, rotate_n se n = .ok (List.replicate n none, se)) := by
  have hlen : 0 < s.proxies.length := List.length_pos.mpr hne
  have hcur : s.current_proxy_index < s.proxies.length := by
    rw [h0]
    exact hlen
  have hout1 : (List.range s.proxies.length).map (fun i =>
      (s.proxies[(s.current_proxy_index + i) % s.proxies.length]?).map mkProxyDict)
      = s.proxies.map (fun p => some (mkProxyDict p)) := by
    refine Eq.trans (List.map_congr_left fun i hi => ?_)
      (range_map_getElem s.proxies mkProxyDict)
    rw [h0, Nat.zero_add, Nat.mod_eq_of_lt (List.mem_range.mp hi)]
  have hout2 : (List.range (s.proxies.length + 1)).map (fun i =>
      (s.proxies[(s.current_proxy_index + i) % s.proxies.length]?).map mkProxyDict)
      = s.proxies.map (fun p => some (mkProxyDict p)) ++
          [(s.proxies[0]?).map mkProxyDict] := by
    rw [List.range_succ, List.map_append, List.map_cons, List.map_nil]
    refine congrArg₂ (· ++ ·) hout1 ?_
    rw [h0, Nat.zero_add, Nat.mod_self]
  refine ⟨⟨{ s with current_proxy_index :=
      (s.current_proxy_index + s.proxies.length) % s.proxies.length }, ?_⟩,
    ⟨{ s with current_proxy_index :=
      (s.current_proxy_index + (s.proxies.length + 1)) % s.proxies.length }, ?_⟩,
    fun se he n => rotate_n_empty se he n⟩
  · rw [rotate_n_spec s.proxies.length s hcur, hout1]
  · rw [rotate_n_spec (s.proxies.length + 1) s hcur, hout2]

theorem proxy_round_robin_witness :
    ((["a", "b", "c"] : List String) ≠ []) ∧
    (∃ s1, rotate_n (add_proxies initState ["a", "b", "c"]) 3 =
      .ok (["a", "b", "c"].map (fun p => some (mkProxyDict p)), s1)) ∧
    (∃ s2, rotate_n (add_proxies initState ["a", "b", "c"]) 4 =
      .ok (["a", "b", "c"].map (fun p => some (mkProxyDict p)) ++
        [((["a", "b", "c"] : List String)[0]?).map mkProxyDict], s2)) ∧
    (∀ se : ScraperState, se.proxies = [] →
      ∀ n, rotate_n se n = .ok (List.replicate n none, se)) :=
  ⟨by decide, proxy_round_robin (add_proxies initState ["a", "b", "c"]) (by decide) rfl⟩

end BugCheckerF

namespace BugCheckerF

/-! ## Claim C1 -/

/-- Claim C1, counterexample: scrape_url can raise.  From a fresh engine,
  configure three proxies, scrape twice (each successful scrape consumes one
  rotation, leaving the cursor at 2), then configure a two-proxy pool: the
  next scrape_url call hits an out-of-range pool read inside the try block;
  IndexError is not a requests RequestException, so it escapes to the
  caller instead of being recovered in the retry loop. -/
theorem scrape_url_raises_counterexample :
    scrape_url (add_proxies initState ["a", "b", "c"]) "u" false envOk =
      .ok (successBeautifulSoup "u" "ok" emptySoup,
        { proxies := ["a", "b", "c"], current_proxy_index := 1,
          rate_limit := 2, max_retries := 3 }, [], 1) ∧
    scrape_url
        { proxies := ["a", "b", "c"], current_proxy_index := 1,
          rate_limit := 2, max_retries := 3 } "u" false envOk =
      .ok (successBeautifulSoup "u" "ok" emptySoup,
        { proxies := ["a", "b", "c"], current_proxy_index := 2,
          rate_limit := 2, max_retries := 3 }, [], 1) ∧
    scrape_url (add_proxies
        { proxies := ["a", "b", "c"], current_proxy_index := 2,
          rate_limit := 2, max_retries := 3 } ["x", "y"]) "u" false envOk =
      .error "IndexError: list index out of range" :=
  ⟨rfl, rfl, rfl⟩

/-- Claim C1 (amended): provided the pool state satisfies the cursor
  invariant (empty pool, or cursor within range), scrape_url returns a
  FetchResult for every url, mode flag, and transport behaviour — every
  transport failure, 429, bad status and extraction outcome is absorbed and
  the only failure signal is the returned status field. -/
theorem scrape_url_total_under_invariant (s : ScraperState) (url : String)
    (flag : Bool) (env : Nat → AttemptOutcome) (hwf : PoolWF s) :
    ∃ r s1 evs n, scrape_url s url flag env = .ok (r, s1, evs, n) ∧
      (r.status = "success" ∨ r.status = "failed") ∧ r.url = url := by
  obtain ⟨r, s1, evs, n, h, -, -, -, -, -, hst, hu, -⟩ := scrape_url_spec s url flag env hwf
  exact ⟨r, s1, evs, n, h, hst, hu⟩

theorem scrape_url_total_under_invariant_witness :
    PoolWF initState ∧
    ∃ r s1 evs n,
      scrape_url initState "https://example.com" false envFail = .ok (r, s1, evs, n) ∧
      (r.status = "success" ∨ r.status = "failed") ∧ r.url = "https://example.com" :=
  ⟨by decide,
   scrape_url_total_under_invariant initState "https://example.com" false envFail (by decide)⟩

/-! ## Claim C6 -/

/-- Claim C6, counterexample: a 429 on attempt 0 with attempts remaining
  sleeps only the 10 to 20 second penalty and continues past the
  bottom-of-loop pacing call, so no Pacing Controller delay is recorded;
  likewise a transport failure sleeps only the 5 to 10 second penalty.  The
  full delay lists contain no humanDelay event. -/
theorem pacing_skipped_counterexample :
    scrape_url initState "u" false env429then200 =
      .ok (successBeautifulSoup "u" "ok" emptySoup, initState,
        [.rateLimitPenalty], 2) ∧
    scrape_url initState "u" false envErrThen200 =
      .ok (successBeautifulSoup "u" "ok" emptySoup, initState,
        [.transportPenalty], 2) :=
  ⟨rfl, rfl⟩

/-- Claim C6 (amended): after a non-success classification the Pacing
  Controller delay is applied only for the bad-HTTP-status case (when
  attempts remain); the RateLimited and transport-failure branches sleep
  only their penalty bands and continue, skipping the pacing delay. -/
theorem pacing_only_after_bad_status (s : ScraperState) (url : String) (flag : Bool)
    (attempt : Nat) (code : Nat) (t : String) (tf : Option String) (sp : Soup) :
    (attempt_body s url flag attempt (.response 429 t tf sp) =
      (.nextAttempt, [.rateLimitPenalty])) ∧
    (attempt < s.max_retries - 1 →
      attempt_body s url flag attempt .requestError =
        (.nextAttempt, [.transportPenalty])) ∧
    (code ≠ 200 → code ≠ 429 → attempt < s.max_retries - 1 →
      attempt_body s url flag attempt (.response code t tf sp) =
        (.nextAttempt, [.humanDelay s.rate_limit])) ∧
    (∀ rl : Nat, DelayEvent.humanDelay rl ∉ ([.rateLimitPenalty] : List DelayEvent)) ∧
    (∀ rl : Nat, DelayEvent.humanDelay rl ∉ ([.transportPenalty] : List DelayEvent)) := by
  refine ⟨attempt_body_429 s url flag attempt t tf sp, fun h => ?_,
    fun h200 h429 h => ?_, fun rl hmem => ?_, fun rl hmem => ?_⟩
  · simp [attempt_body, h]
  · simp [attempt_body, h200, h429, h]
  · simp at hmem
  · simp at hmem

theorem pacing_only_after_bad_status_witness :
    attempt_body initState "u" false 0 (.response 429 "" none emptySoup) =
      (.nextAttempt, [.rateLimitPenalty]) ∧
    attempt_body initState "u" false 0 .requestError =
      (.nextAttempt, [.transportPenalty]) ∧
    attempt_body initState "u" false 0 (.response 500 "" none emptySoup) =
      (.nextAttempt, [.humanDelay 2]) := by
  obtain ⟨h1, h2, h3, -, -⟩ :=
    pacing_only_after_bad_status initState "u" false 0 500 "" none emptySoup
  exact ⟨h1, h2 (by decide), h3 (by decide) (by decide) (by decide)⟩

/-! ## Claim C7 -/

/-- Claim C7: with the pool invariant, scrape_url always terminates with a
  result after at most max_retries transport attempts, and a run where
  every attempt is a transport failure makes exactly max_retries attempts,
  ending in the failed result with content None and method None. -/
theorem fetch_termination_bound (s : ScraperState) (url : String) (flag : Bool)
    (env : Nat → AttemptOutcome) (hwf : PoolWF s) :
    (∃ r s1 evs n, scrape_url s url flag env = .ok (r, s1, evs, n) ∧
      n ≤ s.max_retries) ∧
    ((∀ i, env i = .requestError) →
      ∃ s1 evs, scrape_url s url flag env =
          .ok (failedResult url, s1, evs, s.max_retries) ∧
        (failedResult url).status = "failed" ∧
        (failedResult url).content = none ∧
        (failedResult url).method = none) := by
  constructor
  · obtain ⟨r, s1, evs, n, h, -, -, -, -, hn, -, -, -⟩ := scrape_url_spec s url flag env hwf
    exact ⟨r, s1, evs, n, h, hn⟩
  · intro hfail
    obtain ⟨s1, evs, h⟩ := scrape_url_loop_all_fail url flag env hfail s.max_retries s 0 hwf
    exact ⟨s1, evs, h, rfl, rfl, rfl⟩

theorem fetch_termination_bound_witness :
    PoolWF initState ∧
    ∃ s1 evs, scrape_url initState "u" false envFail =
        .ok (failedResult "u", s1, evs, initState.max_retries) ∧
      (failedResult "u").status = "failed" ∧
      (failedResult "u").content = none ∧
      (failedResult "u").method = none :=
  ⟨by decide,
   (fetch_termination_bound initState "u" false envFail (by decide)).2 (fun _ => rfl)⟩

/-! ## Claim C8 -/

lemma bulk_scrape_loop_spec (flag : Bool) :
    ∀ (urls : List String) (s : ScraperState) (envs : Nat → Nat → AttemptOutcome),
      PoolWF s →
      ∃ results s1 evs, bulk_scrape_loop flag s urls envs = .ok (results, s1, evs) ∧
        PoolWF s1 ∧ results.map FetchResult.url = urls := by
  intro urls
  induction urls with
  | nil => exact fun s envs hwf => ⟨[], s, [], rfl, hwf, rfl⟩
  | cons url rest ih =>
      intro s envs hwf
      obtain ⟨r, s1, evs, n, hscr, hwf1, -, -, -, -, -, hu, -⟩ :=
        scrape_url_spec s url flag (envs 0) hwf
      obtain ⟨results, s2, evs2, hrec, hwf2, hmap⟩ := ih s1 (fun i => envs (i + 1)) hwf1
      refine ⟨r :: results, s2,
        evs ++ (if rest.isEmpty then [] else [.humanDelay s1.rate_limit]) ++ evs2,
        ?_, hwf2, ?_⟩
      · simp [bulk_scrape_loop, hscr, hrec]
      · simp [hmap, hu]

/-- Claim C8: bulk_scrape returns exactly one result per input url, in
  input order (the url field of the i-th result is the i-th input url),
  whether the individual fetches succeed or fail. -/
theorem bulk_scrape_order_preservation (s : ScraperState) (urls : List String)
    (flag : Bool) (envs : Nat → Nat → AttemptOutcome) (hwf : PoolWF s) :
    ∃ results s1 evs, bulk_scrape s urls flag envs = .ok (results, s1, evs) ∧
      results.length = urls.length ∧ results.map FetchResult.url = urls := by
  obtain ⟨results, s1, evs, h, -, hmap⟩ := bulk_scrape_loop_spec flag urls s envs hwf
  refine ⟨results, s1, evs, h, ?_, hmap⟩
  rw [← hmap, List.length_map]

theorem bulk_scrape_order_preservation_witness :
    PoolWF initState ∧
    ∃ results s1 evs,
      bulk_scrape initState ["u1", "u2"] false
          (fun i _ => if i = 0 then .requestError
                      else .response 200 "ok" none emptySoup) =
        .ok (results, s1, evs) ∧
      results.length = (["u1", "u2"] : List String).length ∧
      results.map FetchResult.url = ["u1", "u2"] :=
  ⟨by decide,
   bulk_scrape_order_preservation initState ["u1", "u2"] false
     (fun i _ => if i = 0 then .requestError
                 else .response 200 "ok" none emptySoup) (by decide)⟩

end BugCheckerF

namespace BugCheckerF

/-! ## Claim C9 -/

/-- Claim C9: with retry budget 3 and responses 429, 429, 200, scrape_url
  sleeps exactly two penalty delays, both from the 10 to 20 second band
  (distinct from the 5 to 10 second transport band and from every baseline
  pacing band), then succeeds on the third attempt with no further
  attempts. -/
theorem rate_limit_backoff_distinction (s : ScraperState) (url : String)
    (flag : Bool) (env : Nat → AttemptOutcome) (t0 t1 t2 : String)
    (tf0 tf1 tf2 : Option String) (sp0 sp1 sp2 : Soup)
    (hwf : PoolWF s) (hmr : s.max_retries = 3)
    (h0 : env 0 = .response 429 t0 tf0 sp0) (h1 : env 1 = .response 429 t1 tf1 sp1)
    (h2 : env 2 = .response 200 t2 tf2 sp2) :
    ∃ r s3, scrape_url s url flag env =
        .ok (r, s3, [.rateLimitPenalty, .rateLimitPenalty], 3) ∧
      r.status = "success" ∧
      DelayEvent.rateLimitPenalty.band = (10, 20) ∧
      DelayEvent.transportPenalty.band = (5, 10) ∧
      DelayEvent.rateLimitPenalty.band ≠ DelayEvent.transportPenalty.band ∧
      (∀ rl : Nat, (DelayEvent.humanDelay rl).band ≠ DelayEvent.rateLimitPenalty.band) := by
  obtain ⟨p0, sa, hgp0, hwfa, -, -, hma⟩ := get_next_proxy_wf s hwf
  obtain ⟨p1, sb, hgp1, hwfb, -, -, hmb⟩ := get_next_proxy_wf sa hwfa
  obtain ⟨p2, sc, hgp2, hwfc, -, -, hmc⟩ := get_next_proxy_wf sb hwfb
  have hb0 : attempt_body sa url flag 0 (env 0) = (.nextAttempt, [.rateLimitPenalty]) := by
    rw [h0]
    exact attempt_body_429 sa url flag 0 t0 tf0 sp0
  have hb1 : attempt_body sb url flag 1 (env 1) = (.nextAttempt, [.rateLimitPenalty]) := by
    rw [h1]
    exact attempt_body_429 sb url flag 1 t1 tf1 sp1
  have hb2 : ∃ R, attempt_body sc url flag 2 (env 2) = (.done R, []) := by
    rw [h2]
    cases flag with
    | false => exact ⟨_, attempt_body_200_beautifulsoup sc url 2 t2 tf2 sp2⟩
    | true => exact ⟨_, attempt_body_200_trafilatura sc url 2 t2 tf2 sp2⟩
  obtain ⟨R, hb2⟩ := hb2
  have hstat := (attempt_body_done sc url flag 2 (env 2) R [] hb2).1
  have l2 : scrape_url_loop url flag env sb 2 1 = .ok (R, sc, [], 1) :=
    scrape_url_loop_step_done url flag env sb sc p2 2 0 R [] hgp2 hb2
  have l1 : scrape_url_loop url flag env sa 1 2 =
      .ok (R, sc, [.rateLimitPenalty] ++ [], 2) :=
    scrape_url_loop_step_next url flag env sa sb sc p1 1 1 1 R
      [.rateLimitPenalty] [] hgp1 hb1 l2
  have l0 : scrape_url_loop url flag env s 0 3 =
      .ok (R, sc, [.rateLimitPenalty] ++ ([.rateLimitPenalty] ++ []), 3) :=
    scrape_url_loop_step_next url flag env s sa sc p0 0 2 2 R
      [.rateLimitPenalty] ([.rateLimitPenalty] ++ []) hgp0 hb0 l1
  refine ⟨R, sc, ?_, hstat, rfl, rfl, by decide, fun rl h => ?_⟩
  · unfold scrape_url
    rw [hmr]
    exact l0
  · simp only [DelayEvent.band, Prod.mk.injEq] at h
    obtain ⟨ha, hb⟩ := h
    have : (0 : Rat) < 1 := by norm_num
    linarith

theorem rate_limit_backoff_distinction_witness :
    PoolWF initState ∧ initState.max_retries = 3 ∧
    ∃ r s3, scrape_url initState "u" false env429twice =
        .ok (r, s3, [.rateLimitPenalty, .rateLimitPenalty], 3) ∧
      r.status = "success" ∧
      DelayEvent.rateLimitPenalty.band = (10, 20) ∧
      DelayEvent.transportPenalty.band = (5, 10) ∧
      DelayEvent.rateLimitPenalty.band ≠ DelayEvent.transportPenalty.band ∧
      (∀ rl : Nat, (DelayEvent.humanDelay rl).band ≠ DelayEvent.rateLimitPenalty.band) :=
  ⟨by decide, rfl,
   rate_limit_backoff_distinction initState "u" false env429twice "" "" "ok"
     none none none emptySoup emptySoup emptySoup (by decide) rfl rfl rfl rfl⟩

/-! ## Claim C10 -/

/-- Claim C10: in clean-text mode a 200 response whose trafilatura
  extraction yields None produces a result with status success and content
  None — the same content, url, title and soup fields as a failed result,
  differing only in the status and method fields. -/
theorem success_with_none_content (s : ScraperState) (url t : String) (sp : Soup)
    (env : Nat → AttemptOutcome) (hwf : PoolWF s) (hmr : 0 < s.max_retries)
    (h0 : env 0 = .response 200 t none sp) :
    ∃ s1, scrape_url s url true env = .ok (successTrafilatura url none, s1, [], 1) ∧
      (successTrafilatura url none).status = "success" ∧
      (successTrafilatura url none).content = none ∧
      (failedResult url).content = none ∧
      (successTrafilatura url none).status ≠ (failedResult url).status ∧
      (successTrafilatura url none).method ≠ (failedResult url).method ∧
      (successTrafilatura url none).url = (failedResult url).url ∧
      (successTrafilatura url none).title = (failedResult url).title ∧
      (successTrafilatura url none).soup = (failedResult url).soup := by
  obtain ⟨p, s1, hgp, -, -, -, -⟩ := get_next_proxy_wf s hwf
  have hb : attempt_body s1 url true 0 (env 0) =
      (.done (successTrafilatura url none), []) := by
    rw [h0]
    exact attempt_body_200_trafilatura s1 url 0 t none sp
  obtain ⟨k, hk⟩ : ∃ k, s.max_retries = k + 1 :=
    ⟨s.max_retries - 1, (Nat.succ_pred_eq_of_pos hmr).symm⟩
  refine ⟨s1, ?_, rfl, rfl, rfl,
    (by decide : ("success" : String) ≠ "failed"),
    (by decide : (some "trafilatura" : Option String) ≠ none), rfl, rfl, rfl⟩
  unfold scrape_url
  rw [hk]
  exact scrape_url_loop_step_done url true env s s1 p 0 k
    (successTrafilatura url none) [] hgp hb

theorem success_with_none_content_witness :
    PoolWF initState ∧ 0 < initState.max_retries ∧
    ∃ s1, scrape_url initState "u" true (fun _ => .response 200 "page" none emptySoup) =
        .ok (successTrafilatura "u" none, s1, [], 1) ∧
      (successTrafilatura "u" none).status = "success" ∧
      (successTrafilatura "u" none).content = none ∧
      (failedResult "u").content = none ∧
      (successTrafilatura "u" none).status ≠ (failedResult "u").status ∧
      (successTrafilatura "u" none).method ≠ (failedResult "u").method ∧
      (successTrafilatura "u" none).url = (failedResult "u").url ∧
      (successTrafilatura "u" none).title = (failedResult "u").title ∧
      (successTrafilatura "u" none).soup = (failedResult "u").soup :=
  ⟨by decide, by decide,
   success_with_none_content initState "u" "page" emptySoup
     (fun _ => .response 200 "page" none emptySoup) (by decide) (by decide) rfl⟩

/-! ## Claim C2 -/

/-- A block that raises during extraction. -/
def malformedBlock : SoupBlock :=
  { malformed := true, name := none, ratingAria := none, address := none }

/-- A well-formed listing block. -/
def listingBlock (i : Nat) : SoupBlock :=
  { malformed := false, name := some ("Business " ++ toString i),
    ratingAria := some (toString i ++ " stars"),
    address := some ("Street " ++ toString i) }

/-- A parsed listings page with 12 candidate blocks, block 5 malformed. -/
def listingSoup : Soup :=
  { title := some (some "Results"),
    blocks := (List.range 12).map (fun i => if i = 4 then malformedBlock else listingBlock i) }

def envListing : Nat → AttemptOutcome :=
  fun _ => .response 200 "listing page html" none listingSoup

/-- Claim C2 (code bug): even on a successful fetch of a listings page whose
  parse holds 12 candidate blocks, extract_business_info returns the empty
  list, not min(12, 10) = 10 records: scrape_url never stores the parsed
  soup in its result dictionary, so the guard requiring a soup key is always
  false and the block loop is dead code. -/
theorem extract_business_info_dead_code :
    extract_business_info initState "restaurants" "New York"
        "2026-10-12 00:00:00" envListing = .ok ([], initState, []) ∧
    listingSoup.blocks.length = 12 ∧
    (0 : Nat) ≠ min 12 10 := by
  refine ⟨rfl, rfl, by decide⟩

end BugCheckerF
